import Mathlib

/-
  Verification development for the `mcp` repository (FastAPI backend
  `src/backend/main.py` and provisioning script `src/backend/aws_setup.py`).

  The Python code is shallowly embedded: pure request/response logic becomes
  Lean functions, the in-memory conversation store becomes explicit state
  passing over an association list, and every call to an external AWS SDK
  endpoint is either abstracted into an explicit outcome parameter (an
  oracle) or run against a small reference model of the AWS service whose
  only behaviour is the "resource already exists" error reporting that the
  Python code itself branches on.  The unbounded `while True` polling loops
  are embedded fuel-indexed; fuel exhaustion (`none`) models the loop never
  having observed its terminal status, i.e. the source's infinite loop.
-/

namespace Mcp

/-- Python's `lst[-n:]`: the last `n` elements of a list (all of them when
the list is shorter). -/
def takeLast (n : Nat) (l : List α) : List α := l.drop (l.length - n)

/-! ## Reference model of the AWS services used by `aws_setup.py`

Only the behaviour the Python code branches on is modelled: each `create_*`
call either succeeds (registering the resource) or, when a resource of the
same name already exists, fails with the provider's documented
already-exists error code — `BucketAlreadyOwnedByYou` for S3 buckets,
`EntityAlreadyExists` for IAM roles, and `ConflictException` for OpenSearch
Serverless security policies and collections.  Identifiers (ARNs) are
deterministic functions of the resource name, matching AWS's name-derived
ARNs. -/

/-- State of the modelled AWS account: which named resources exist. -/
structure AWSState where
  buckets : List String
  roles : List String
  securityPolicies : List (String × String)
  collections : List String
deriving DecidableEq, Repr

/-- Model of `s3.create_bucket`. -/
def awsCreateBucket (st : AWSState) (name : String) : AWSState × Except String Unit :=
  if name ∈ st.buckets then (st, .error "BucketAlreadyOwnedByYou")
  else ({ st with buckets := name :: st.buckets }, .ok ())

/-- ARN the model assigns to an IAM role, a function of its name. -/
def roleArnOf (name : String) : String :=
  "arn:aws:iam::123456789012:role/" ++ name

/-- Model of `iam.create_role`. -/
def awsCreateRole (st : AWSState) (name : String) : AWSState × Except String String :=
  if name ∈ st.roles then (st, .error "EntityAlreadyExists")
  else ({ st with roles := name :: st.roles }, .ok (roleArnOf name))

/-- Model of `iam.get_role`. -/
def awsGetRole (st : AWSState) (name : String) : Except String String :=
  if name ∈ st.roles then .ok (roleArnOf name) else .error "NoSuchEntity"

/-- Model of `opensearch.create_security_policy` (keyed by name and type). -/
def awsCreateSecurityPolicy (st : AWSState) (name ptype : String) :
    AWSState × Except String Unit :=
  if (name, ptype) ∈ st.securityPolicies then (st, .error "ConflictException")
  else ({ st with securityPolicies := (name, ptype) :: st.securityPolicies }, .ok ())

/-- ARN the model assigns to an OpenSearch Serverless collection. -/
def collectionArnOf (name : String) : String :=
  "arn:aws:aoss:us-east-1:123456789012:collection/" ++ name

/-- Model of `opensearch.create_collection`. -/
def awsCreateCollection (st : AWSState) (name : String) :
    AWSState × Except String String :=
  if name ∈ st.collections then (st, .error "ConflictException")
  else ({ st with collections := name :: st.collections }, .ok (collectionArnOf name))

/-! ## Polling loops of `aws_setup.py`

Both `while True` loops in the source (`create_opensearch_collection` lines
154-163 waiting for collection status ACTIVE, and `sync_knowledge_base`
lines 368-383 waiting for ingestion status COMPLETE or FAILED) poll an
external status and exit only when a terminal status is observed; neither
has a timeout or attempt bound.  `statuses i` is the status the `i`-th poll
observes; the fuel argument bounds how many polls the embedding may
unfold, with `none` meaning the loop has still not returned. -/

/-- Fuel-indexed embedding of a `while True: poll; if terminal: break` loop.
Returns the index of the first poll (at or after `i`) that observes a
terminal status, `none` if no poll within `fuel` does. -/
def pollLoop (terminal : String → Bool) (statuses : Nat → String) :
    Nat → Nat → Option Nat
  | 0, _ => none
  | fuel + 1, i =>
    if terminal (statuses i) then some i else pollLoop terminal statuses fuel (i + 1)

/-- Terminal-status test of the ingestion polling loop in
`sync_knowledge_base`: `current_status in ['COMPLETE', 'FAILED']`. -/
def ingestionTerminal (s : String) : Bool :=
  s == "COMPLETE" || s == "FAILED"

/-- Terminal-status test of the collection polling loop in
`create_opensearch_collection`: `status == 'ACTIVE'`. -/
def activeTerminal (s : String) : Bool :=
  s == "ACTIVE"

/-! ## The provisioning step functions of `aws_setup.py` -/

/-- Embedding of `BedrockKnowledgeBaseSetup.create_s3_bucket` (lines 16-34):
create the bucket; a `BucketAlreadyOwnedByYou` error is treated as success,
any other error as failure. -/
def create_s3_bucket (st : AWSState) (bucket_name : String) : AWSState × Bool :=
  match awsCreateBucket st bucket_name with
  | (st1, .ok ()) => (st1, true)
  | (st1, .error code) =>
    if code = "BucketAlreadyOwnedByYou" then (st1, true) else (st1, false)

/-- Embedding of `create_iam_role_for_bedrock` (lines 36-100): create the
role and return its ARN; on `EntityAlreadyExists` fetch the existing role's
ARN via `get_role` and return that; any other error yields `None`.  The
`attach_role_policy` / `put_role_policy` calls are idempotent upserts on
AWS and are modelled as always succeeding. -/
def create_iam_role_for_bedrock (st : AWSState) (role_name : String) :
    AWSState × Option String :=
  match awsCreateRole st role_name with
  | (st1, .ok arn) => (st1, some arn)
  | (st1, .error code) =>
    if code = "EntityAlreadyExists" then
      match awsGetRole st1 role_name with
      | .ok arn => (st1, some arn)
      | .error _ => (st1, none)
    else (st1, none)

/-- Embedding of `create_opensearch_collection` (lines 102-168): create the
encryption security policy, the network security policy and the collection
in order, then poll `list_collections` until the collection status is
ACTIVE, returning the collection ARN.  Any `ClientError` in the sequence —
including the conflict raised when a policy or collection of the same name
already exists — is caught by the single `except` handler and yields
`None`.  Fuel exhaustion of the polling loop (source: infinite loop) also
yields no ARN. -/
def create_opensearch_collection (st : AWSState) (collection_name : String)
    (statuses : Nat → String) (fuel : Nat) : AWSState × Option String :=
  match awsCreateSecurityPolicy st (collection_name ++ "-encryption") "encryption" with
  | (st1, .error _) => (st1, none)
  | (st1, .ok ()) =>
    match awsCreateSecurityPolicy st1 (collection_name ++ "-network") "network" with
    | (st2, .error _) => (st2, none)
    | (st2, .ok ()) =>
      match awsCreateCollection st2 collection_name with
      | (st3, .error _) => (st3, none)
      | (st3, .ok arn) =>
        match pollLoop activeTerminal statuses fuel 0 with
        | some _ => (st3, some arn)
        | none => (st3, none)

/-- Embedding of `sync_knowledge_base` (lines 356-388): start the ingestion
job, poll `get_ingestion_job` until the status is COMPLETE or FAILED, and
return whether the final status is COMPLETE.  `none` models the loop never
observing a terminal status. -/
def sync_knowledge_base (statuses : Nat → String) (fuel : Nat) : Option Bool :=
  match pollLoop ingestionTerminal statuses fuel 0 with
  | some n => some (statuses n == "COMPLETE")
  | none => none

/-! ## `setup_complete_system` (lines 390-446)

The six provisioning steps run strictly in order; the outcome each step's
external calls would produce is abstracted into an `Env` record (the
per-step embeddings above show how those outcomes arise from the SDK
responses).  The function returns the list of steps whose external calls
were actually issued, together with the final result. -/

/-- The six steps of the provisioning plan, in source order. -/
inductive Step
  | createBucket
  | createRole
  | createCollection
  | uploadDocs
  | createKB
  | syncKB
deriving DecidableEq, Repr

/-- Position of a step in the plan. -/
def stepIndex : Step → Nat
  | .createBucket => 0
  | .createRole => 1
  | .createCollection => 2
  | .uploadDocs => 3
  | .createKB => 4
  | .syncKB => 5

/-- Outcomes of the six steps' external interactions: the return values of
`create_s3_bucket`, `create_iam_role_for_bedrock`,
`create_opensearch_collection`, `create_knowledge_base` and
`sync_knowledge_base` as invoked by `setup_complete_system`
(`upload_sample_documents` returns nothing and never fails the plan: its
per-document `ClientError`s are caught and only logged, lines 344-354). -/
structure Env where
  bucketOk : Bool
  roleResult : Option String
  collectionResult : Option String
  kbResult : Option (String × String)
  syncOk : Bool

/-- The result bundle `setup_complete_system` returns on full success. -/
structure SetupResult where
  knowledge_base_id : String
  data_source_id : String
  bucket_name : String
  collection_name : String
  role_arn : String
deriving DecidableEq, Repr

/-- Embedding of `setup_complete_system` (lines 390-446): issue the steps in
order, abort with `None` as soon as a step fails (upload of sample
documents cannot fail the plan), and on full success — including the
ingestion job ending COMPLETE, `env.syncOk` — return the result bundle.
The first component lists the steps whose external calls were issued. -/
def setup_complete_system (env : Env) (project_name : String) (ts : Nat) :
    List Step × Option SetupResult :=
  let bucket_name := project_name ++ "-documents-" ++ toString ts
  let collection_name := project_name ++ "-kb-collection"
  if !env.bucketOk then ([.createBucket], none)
  else
    match env.roleResult with
    | none => ([.createBucket, .createRole], none)
    | some role_arn =>
      match env.collectionResult with
      | none => ([.createBucket, .createRole, .createCollection], none)
      | some _ =>
        match env.kbResult with
        | none =>
          ([.createBucket, .createRole, .createCollection, .uploadDocs, .createKB], none)
        | some (kb_id, data_source_id) =>
          if env.syncOk then
            ([.createBucket, .createRole, .createCollection, .uploadDocs, .createKB,
              .syncKB],
             some { knowledge_base_id := kb_id, data_source_id := data_source_id,
                    bucket_name := bucket_name, collection_name := collection_name,
                    role_arn := role_arn })
          else
            ([.createBucket, .createRole, .createCollection, .uploadDocs, .createKB,
              .syncKB], none)

/-- Whether a step of the plan fails under the given outcomes
(`uploadDocs` never fails the plan). -/
def stepFails (env : Env) : Step → Bool
  | .createBucket => !env.bucketOk
  | .createRole => env.roleResult.isNone
  | .createCollection => env.collectionResult.isNone
  | .uploadDocs => false
  | .createKB => env.kbResult.isNone
  | .syncKB => !env.syncOk

/-! ## The FastAPI agent service of `src/backend/main.py`

Timestamps (`datetime.now()`) become an explicit `now : Nat` parameter;
scores (floats) become rationals; the two external Bedrock endpoints become
oracles: `retrieve` is the outcome of `bedrock_agent_runtime.retrieve`, and
`gen : String → Except String String` maps the composed prompt to the
outcome of `bedrock_runtime.invoke_model` (a `ClientError` there is
re-raised by `invoke_bedrock_model` as an HTTP 500 failure, lines 141-143,
modelled as `Except.error`). -/

/-- A stored conversation message (`main.py` lines 184-188, 224-228). -/
structure Msg where
  role : String
  content : String
  timestamp : Nat
deriving DecidableEq, Repr

/-- One retrieval result as assembled by `query_knowledge_base`
(lines 161-167): content text, relevance score, source location. -/
structure RetrievalItem where
  content : String
  score : ℚ
  location : String
deriving DecidableEq, Repr

/-- The four agent modes (`Literal` on `ChatRequest.agent_mode`). -/
inductive AgentMode
  | summarizer
  | router
  | explainer
  | quizzer
deriving DecidableEq, Repr

/-- String form of an agent mode, as interpolated into the prompt. -/
def AgentMode.toStr : AgentMode → String
  | .summarizer => "summarizer"
  | .router => "router"
  | .explainer => "explainer"
  | .quizzer => "quizzer"

/-- The `AGENT_PROMPTS` dictionary (lines 78-112), transcribed verbatim. -/
def AGENT_PROMPTS : AgentMode → String
  | .summarizer =>
    "You are an expert summarizer. Your task is to create clear, concise summaries that capture the key points and essential information. \n    Adapt your summary style based on the request:\n    - Brief: 2-3 sentences highlighting main points\n    - Detailed: Comprehensive summary with key details and context\n    - Bullet points: Organized list of main points\n    \n    Always maintain accuracy and preserve important context."
  | .router =>
    "You are an intelligent router. Your role is to:\n    1. Analyze user queries and determine the most appropriate response strategy\n    2. Identify the type of information or assistance needed\n    3. Route requests to the appropriate specialized function or provide direct responses\n    4. Suggest alternative approaches when the initial request needs clarification\n    \n    Always explain your routing decision briefly."
  | .explainer =>
    "You are an expert explainer. Your mission is to make complex topics accessible and understandable:\n    1. Break down complex concepts into digestible parts\n    2. Use analogies and examples when helpful\n    3. Provide step-by-step explanations when appropriate\n    4. Adjust complexity based on the apparent knowledge level\n    5. Encourage follow-up questions\n    \n    Always aim for clarity and engagement."
  | .quizzer =>
    "You are an educational quiz creator. Your role is to:\n    1. Generate relevant, well-structured questions based on provided topics\n    2. Create questions at appropriate difficulty levels\n    3. Provide clear answer choices for multiple choice questions\n    4. Include explanations for correct answers\n    5. Ensure questions test understanding, not just memorization\n    \n    Focus on learning outcomes and educational value."

/-- The `ChatRequest` pydantic model (lines 49-53). -/
structure ChatRequest where
  message : String
  conversation_id : Option String
  agent_mode : AgentMode
  context : Option String
deriving DecidableEq, Repr

/-- The `ChatResponse` pydantic model (lines 55-59), with the two metadata
fields `process_chat` populates (lines 234-237) inlined. -/
structure ChatResponse where
  response : String
  conversation_id : String
  agent_mode : String
  kb_results_count : Nat
  conversation_length : Nat
deriving DecidableEq, Repr

/-- State of the `AIAgentService` singleton (lines 114-117): the optional
knowledge-base id and the in-memory conversation store (a Python dict,
embedded as an association list with dict lookup semantics). -/
structure ServiceState where
  knowledge_base_id : Option String
  conversations : List (String × List Msg)
deriving DecidableEq, Repr

/-- Dict lookup: `store[k]` / `k in store`. -/
def lookupConv : List (String × List Msg) → String → Option (List Msg)
  | [], _ => none
  | (k1, v) :: rest, k => if k1 = k then some v else lookupConv rest k

/-- Dict key removal: `del store[k]`. -/
def eraseConv (l : List (String × List Msg)) (k : String) :
    List (String × List Msg) :=
  l.filter (fun p => p.1 != k)

/-- Dict assignment: `store[k] = v`. -/
def insertConv (l : List (String × List Msg)) (k : String) (v : List Msg) :
    List (String × List Msg) :=
  (k, v) :: eraseConv l k

/-- Embedding of `AIAgentService.query_knowledge_base` (lines 145-173):
return `[]` when no knowledge-base id is configured; otherwise return the
retrieval results, or `[]` when the retrieve call raises a `ClientError`
(the error is logged and swallowed). -/
def query_knowledge_base (kb : Option String)
    (retrieve : Except String (List RetrievalItem)) : List RetrievalItem :=
  match kb with
  | none => []
  | some _ =>
    match retrieve with
    | .ok items => items
    | .error _ => []

/-- Rendering of one history message: `f"{msg['role']}: {msg['content']}"`
(line 210). -/
def renderMsg (m : Msg) : String := m.role ++ ": " ++ m.content

/-- The optional knowledge-base context block of the prompt (lines 191-201):
the newline join of the content of the first 3 retrieval results, included
only when that text is non-empty (Python string truthiness). -/
def kbBlock (kb_context : List RetrievalItem) : List String :=
  let kb_context_text := String.intercalate "\n" ((kb_context.take 3).map (·.content))
  if kb_context_text ≠ "" then
    ["Relevant knowledge base context:\n" ++ kb_context_text]
  else []

/-- The optional caller-supplied context block (lines 203-204); `if
request.context:` is false for both `None` and the empty string. -/
def ctxBlock (context : Option String) : List String :=
  match context with
  | some c => if c ≠ "" then ["Additional context:\n" ++ c] else []
  | none => []

/-- The optional conversation-history block (lines 206-213): take the last
5 messages of the conversation (the current user turn already appended);
when more than one remains, render all but the last as "role: content"
lines. -/
def historyBlock (conv : List Msg) : List String :=
  let recent_messages := takeLast 5 conv
  if recent_messages.length > 1 then
    ["Conversation history:\n" ++
      String.intercalate "\n" (recent_messages.dropLast.map renderMsg)]
  else []

/-- The `prompt_parts` list built by `process_chat` (lines 195-217):
system prompt, optional knowledge-base context, optional caller context,
optional history, the user query and the trailing mode instruction.
`conv` is the conversation including the just-appended user turn. -/
def chat_prompt_parts (mode : AgentMode) (message : String)
    (context : Option String) (kb_context : List RetrievalItem)
    (conv : List Msg) : List String :=
  [AGENT_PROMPTS mode] ++ kbBlock kb_context ++ ctxBlock context ++
    historyBlock conv ++
    ["User query: " ++ message, "Respond as a " ++ mode.toStr ++ ":"]

/-- Embedding of `AIAgentService.process_chat` (lines 175-238): resolve or
generate the conversation id, append the user turn to the store, query the
knowledge base, compose the prompt (`"\n\n".join(prompt_parts)`), invoke
the generation endpoint, and on success append the assistant turn and build
the response.  A generation error propagates (the `HTTPException` raised in
`invoke_bedrock_model`) leaving the store as updated by the user turn. -/
def process_chat (st : ServiceState) (req : ChatRequest) (genId : String)
    (retrieve : Except String (List RetrievalItem))
    (gen : String → Except String String) (now : Nat) :
    ServiceState × Except String ChatResponse :=
  let conversation_id := req.conversation_id.getD genId
  let conv0 := (lookupConv st.conversations conversation_id).getD []
  let conv1 := conv0 ++ [{ role := "user", content := req.message, timestamp := now }]
  let st1 := { st with conversations := insertConv st.conversations conversation_id conv1 }
  let kb_context := query_knowledge_base st.knowledge_base_id retrieve
  let full_prompt := String.intercalate "\n\n"
    (chat_prompt_parts req.agent_mode req.message req.context kb_context conv1)
  match gen full_prompt with
  | .error e => (st1, .error e)
  | .ok response_text =>
    let conv2 := conv1 ++
      [{ role := "assistant", content := response_text, timestamp := now }]
    let st2 := { st1 with
      conversations := insertConv st1.conversations conversation_id conv2 }
    (st2, .ok { response := response_text, conversation_id := conversation_id,
                agent_mode := req.agent_mode.toStr,
                kb_results_count := kb_context.length,
                conversation_length := conv2.length })

/-- The `KnowledgeBaseQuery` pydantic model (lines 61-64). -/
structure KnowledgeBaseQuery where
  query : String
  max_results : Nat
  confidence_threshold : ℚ
deriving DecidableEq, Repr

/-- The response body of the `/knowledge-base/query` route. -/
structure KBQueryResponse where
  query : String
  results : List RetrievalItem
  total_results : Nat
  filtered_results : Nat
deriving DecidableEq, Repr

/-- Embedding of the `/knowledge-base/query` route handler (lines 297-316):
query the knowledge base, keep the results whose score is at least the
confidence threshold, and report both counts. -/
def query_knowledge_base_route (kb : Option String)
    (retrieve : Except String (List RetrievalItem)) (req : KnowledgeBaseQuery) :
    KBQueryResponse :=
  let results := query_knowledge_base kb retrieve
  let filtered_results := results.filter (fun r => req.confidence_threshold ≤ r.score)
  { query := req.query, results := filtered_results,
    total_results := results.length, filtered_results := filtered_results.length }

/-- Embedding of the `/conversations/{id}` GET route (lines 318-327): 404
with detail "Conversation not found" when the id is absent, otherwise the
id and its messages. -/
def get_conversation (st : ServiceState) (conversation_id : String) :
    Except (Nat × String) (String × List Msg) :=
  match lookupConv st.conversations conversation_id with
  | none => .error (404, "Conversation not found")
  | some msgs => .ok (conversation_id, msgs)

/-- Embedding of the `/conversations/{id}` DELETE route (lines 329-336):
404 with detail "Conversation not found" when the id is absent, otherwise
remove it and report success. -/
def delete_conversation (st : ServiceState) (conversation_id : String) :
    ServiceState × Except (Nat × String) String :=
  match lookupConv st.conversations conversation_id with
  | none => (st, .error (404, "Conversation not found"))
  | some _ =>
    ({ st with conversations := eraseConv st.conversations conversation_id },
     .ok "Conversation deleted successfully")

/-! ## Helper lemmas -/

/-- Looking up a key right after erasing it finds nothing. -/
theorem lookupConv_eraseConv (l : List (String × List Msg)) (k : String) :
    lookupConv (eraseConv l k) k = none := by
  induction l with
  | nil => rfl
  | cons p rest ih =>
    simp only [eraseConv, List.filter_cons] at *
    by_cases h : p.1 = k
    · simp [h, ih]
    · simp only [h, bne_iff_ne, ne_eq, not_false_iff, if_pos, lookupConv, if_neg h]
      simpa [eraseConv] using ih

/-- Looking up a key right after inserting it finds the inserted value. -/
theorem lookupConv_insertConv (l : List (String × List Msg)) (k : String)
    (v : List Msg) : lookupConv (insertConv l k v) k = some v := by
  simp [insertConv, lookupConv]

/-! ## Claims -/

/-- C5: the knowledge-base query route returns exactly the results whose
score is at least the confidence threshold, in their original order (a
sublist of the retrieved results), with `total_results` the number
retrieved and `filtered_results` the number kept; in particular for scores
[0.9, 0.5, 0.8] and threshold 0.7 exactly the 0.9 and 0.8 items remain,
with `total_results = 3` and `filtered_results = 2`. -/
theorem c5_confidence_filtering (kb : Option String)
    (retrieve : Except String (List RetrievalItem)) (req : KnowledgeBaseQuery) :
    (query_knowledge_base_route kb retrieve req).results =
      (query_knowledge_base kb retrieve).filter
        (fun r => req.confidence_threshold ≤ r.score) ∧
    (query_knowledge_base_route kb retrieve req).results.Sublist
      (query_knowledge_base kb retrieve) ∧
    (query_knowledge_base_route kb retrieve req).total_results =
      (query_knowledge_base kb retrieve).length ∧
    (query_knowledge_base_route kb retrieve req).filtered_results =
      (query_knowledge_base_route kb retrieve req).results.length ∧
    query_knowledge_base_route (some "kb")
        (.ok [⟨"a", 9/10, "l1"⟩, ⟨"b", 1/2, "l2"⟩, ⟨"c", 4/5, "l3"⟩])
        ⟨"q", 5, 7/10⟩ =
      ⟨"q", [⟨"a", 9/10, "l1"⟩, ⟨"c", 4/5, "l3"⟩], 3, 2⟩ :=
  ⟨rfl, List.filter_sublist _, rfl, rfl, by
    simp only [query_knowledge_base_route, query_knowledge_base]
    norm_num [List.filter]⟩

/-- C8: for an id present in the store, deletion succeeds and a subsequent
get reports 404 not-found; for an id not present, both get and delete
report 404 "Conversation not found". -/
theorem c8_conversation_get_delete (st : ServiceState) (cid : String) :
    ((∃ msgs, lookupConv st.conversations cid = some msgs) →
      (delete_conversation st cid).2 = .ok "Conversation deleted successfully" ∧
      get_conversation (delete_conversation st cid).1 cid =
        .error (404, "Conversation not found")) ∧
    (lookupConv st.conversations cid = none →
      get_conversation st cid = .error (404, "Conversation not found") ∧
      (delete_conversation st cid).2 = .error (404, "Conversation not found")) := by
  constructor
  · rintro ⟨msgs, hm⟩
    simp [delete_conversation, get_conversation, hm, lookupConv_eraseConv]
  · intro hn
    simp [delete_conversation, get_conversation, hn]

/-- Witness for C8 at a one-conversation store: id "c1" is present, id "c2"
is absent. -/
theorem c8_conversation_get_delete_witness :
    ((delete_conversation ⟨none, [("c1", [⟨"user", "hi", 0⟩])]⟩ "c1").2 =
        .ok "Conversation deleted successfully" ∧
      get_conversation
          (delete_conversation ⟨none, [("c1", [⟨"user", "hi", 0⟩])]⟩ "c1").1 "c1" =
        .error (404, "Conversation not found")) ∧
    (get_conversation ⟨none, [("c1", [⟨"user", "hi", 0⟩])]⟩ "c2" =
        .error (404, "Conversation not found") ∧
      (delete_conversation ⟨none, [("c1", [⟨"user", "hi", 0⟩])]⟩ "c2").2 =
        .error (404, "Conversation not found")) :=
  ⟨(c8_conversation_get_delete ⟨none, [("c1", [⟨"user", "hi", 0⟩])]⟩ "c1").1
      ⟨[⟨"user", "hi", 0⟩], by decide⟩,
   (c8_conversation_get_delete ⟨none, [("c1", [⟨"user", "hi", 0⟩])]⟩ "c2").2
      (by decide)⟩

/-- C10: when the generation call errors, `process_chat` fails the request
but the just-appended user turn persists in the stored conversation: a
subsequent get for the resolved id returns the prior history plus the user
message, with no assistant reply after it. -/
theorem c10_user_turn_persists_on_failure (st : ServiceState) (req : ChatRequest)
    (genId : String) (retrieve : Except String (List RetrievalItem))
    (e : String) (now : Nat) :
    (process_chat st req genId retrieve (fun _ => .error e) now).2 = .error e ∧
    lookupConv
        (process_chat st req genId retrieve (fun _ => .error e) now).1.conversations
        (req.conversation_id.getD genId) =
      some ((lookupConv st.conversations (req.conversation_id.getD genId)).getD [] ++
        [{ role := "user", content := req.message, timestamp := now }]) ∧
    get_conversation (process_chat st req genId retrieve (fun _ => .error e) now).1
        (req.conversation_id.getD genId) =
      .ok (req.conversation_id.getD genId,
        (lookupConv st.conversations (req.conversation_id.getD genId)).getD [] ++
          [{ role := "user", content := req.message, timestamp := now }]) := by
  refine ⟨rfl, ?_, ?_⟩ <;>
    simp [process_chat, get_conversation, lookupConv_insertConv]

/-- C3: retrieval errors degrade gracefully — the knowledge-base context is
empty (so the prompt has no retrieved-context block) and the chat request
still succeeds — whereas a generation error fails the whole request. -/
theorem c3_error_asymmetry (st : ServiceState) (req : ChatRequest)
    (genId : String) (e e2 g : String) (now : Nat) :
    query_knowledge_base st.knowledge_base_id (.error e) = [] ∧
    kbBlock (query_knowledge_base st.knowledge_base_id (.error e)) = [] ∧
    (∃ r, (process_chat st req genId (.error e) (fun _ => .ok g) now).2 = .ok r) ∧
    (∀ retrieve,
      (process_chat st req genId retrieve (fun _ => .error e2) now).2 = .error e2) := by
  have hq : query_knowledge_base st.knowledge_base_id (.error e) = [] := by
    cases st.knowledge_base_id <;> rfl
  exact ⟨hq, by rw [hq]; rfl, ⟨_, rfl⟩, fun retrieve => rfl⟩

/-- Characterization of the fuel-indexed polling loop: it returns poll
index `n` exactly when `n` is within the fuel window starting at `i`, the
`n`-th poll observes a terminal status, and no earlier poll in the window
does. -/
theorem pollLoop_some_iff (terminal : String → Bool) (statuses : Nat → String)
    (fuel i n : Nat) :
    pollLoop terminal statuses fuel i = some n ↔
      (i ≤ n ∧ n < i + fuel ∧ terminal (statuses n) = true ∧
        ∀ m, i ≤ m → m < n → terminal (statuses m) = false) := by
  induction fuel generalizing i with
  | zero =>
    simp only [pollLoop]
    constructor
    · intro h; cases h
    · rintro ⟨h1, h2, -, -⟩; omega
  | succ fuel ih =>
    rw [pollLoop]
    by_cases h : terminal (statuses i) = true
    · rw [if_pos h]
      constructor
      · intro h2
        injection h2 with h2
        subst h2
        exact ⟨le_refl _, by omega, h, fun m hm1 hm2 => by omega⟩
      · rintro ⟨h1, -, -, h4⟩
        rcases Nat.eq_or_lt_of_le h1 with heq | hlt
        · rw [heq]
        · rw [h4 i (le_refl i) hlt] at h
          cases h
    · rw [if_neg h]
      rw [ih (i + 1)]
      have hb : terminal (statuses i) = false := by
        cases hx : terminal (statuses i)
        · rfl
        · exact absurd hx h
      constructor
      · rintro ⟨h1, h2, h3, h4⟩
        refine ⟨by omega, by omega, h3, fun m hm1 hm2 => ?_⟩
        rcases Nat.eq_or_lt_of_le hm1 with heq | hlt
        · rw [← heq]; exact hb
        · exact h4 m hlt hm2
      · rintro ⟨h1, h2, h3, h4⟩
        have hin : i + 1 ≤ n := by
          rcases Nat.eq_or_lt_of_le h1 with heq | hlt
          · rw [← heq] at h3
            rw [h3] at hb
            cases hb
          · omega
        exact ⟨hin, by omega, h3, fun m hm1 hm2 => h4 m (by omega) hm2⟩

/-- C7: each polling loop returns exactly at the first poll that observes
its terminal status (ACTIVE for the collection loop; COMPLETE or FAILED for
the ingestion loop), it does return once a terminal status is observed
within the unfolded fuel, and — there being no timeout or attempt bound —
if no poll ever observes a terminal status the loop never returns, however
far it is unfolded. -/
theorem c7_polling_loops (statuses : Nat → String) :
    (∀ fuel n, pollLoop activeTerminal statuses fuel 0 = some n →
      statuses n = "ACTIVE" ∧ ∀ m, m < n → statuses m ≠ "ACTIVE") ∧
    ((∀ n, statuses n ≠ "ACTIVE") →
      ∀ fuel, pollLoop activeTerminal statuses fuel 0 = none) ∧
    (∀ n, statuses n = "ACTIVE" → ∀ fuel, n < fuel →
      ∃ m, m ≤ n ∧ pollLoop activeTerminal statuses fuel 0 = some m) ∧
    (∀ fuel n, pollLoop ingestionTerminal statuses fuel 0 = some n →
      ingestionTerminal (statuses n) = true ∧
        ∀ m, m < n → ingestionTerminal (statuses m) = false) ∧
    ((∀ n, ingestionTerminal (statuses n) = false) →
      ∀ fuel, pollLoop ingestionTerminal statuses fuel 0 = none) ∧
    (∀ n, ingestionTerminal (statuses n) = true → ∀ fuel, n < fuel →
      ∃ m, m ≤ n ∧ pollLoop ingestionTerminal statuses fuel 0 = some m) := by
  have hfirst : ∀ (terminal : String → Bool) (fuel n : Nat),
      pollLoop terminal statuses fuel 0 = some n →
      terminal (statuses n) = true ∧ ∀ m, m < n → terminal (statuses m) = false := by
    intro terminal fuel n h
    rw [pollLoop_some_iff] at h
    exact ⟨h.2.2.1, fun m hm => h.2.2.2 m (Nat.zero_le m) hm⟩
  have hnever : ∀ (terminal : String → Bool),
      (∀ n, terminal (statuses n) = false) →
      ∀ fuel, pollLoop terminal statuses fuel 0 = none := by
    intro terminal hall fuel
    cases hp : pollLoop terminal statuses fuel 0 with
    | none => rfl
    | some n =>
      rw [pollLoop_some_iff] at hp
      rw [hall n] at hp
      exact absurd hp.2.2.1 (by simp)
  have hterm : ∀ (terminal : String → Bool) (n : Nat),
      terminal (statuses n) = true → ∀ fuel, n < fuel →
      ∃ m, m ≤ n ∧ pollLoop terminal statuses fuel 0 = some m := by
    intro terminal n hn fuel hf
    have hex : ∃ m, terminal (statuses m) = true := ⟨n, hn⟩
    refine ⟨Nat.find hex, Nat.find_min' hex hn, ?_⟩
    rw [pollLoop_some_iff]
    refine ⟨Nat.zero_le _, ?_, Nat.find_spec hex, fun m _ hm => ?_⟩
    · have := Nat.find_min' hex hn
      omega
    · have := Nat.find_min hex hm
      cases hx : terminal (statuses m)
      · rfl
      · exact absurd hx this
  refine ⟨?_, ?_, ?_, hfirst ingestionTerminal, hnever ingestionTerminal,
    hterm ingestionTerminal⟩
  · intro fuel n h
    have := hfirst activeTerminal fuel n h
    refine ⟨by simpa [activeTerminal] using this.1, fun m hm => ?_⟩
    have := this.2 m hm
    simpa [activeTerminal] using this
  · intro hall fuel
    exact hnever activeTerminal (fun n => by simpa [activeTerminal] using hall n) fuel
  · intro n hn fuel hf
    exact hterm activeTerminal n (by simpa [activeTerminal] using hn) fuel hf

/-- Witness for C7: a status stream that becomes ACTIVE at poll 2 (resp.
FAILED at poll 1) makes the loop return, streams that never reach a
terminal status make it return for no amount of fuel. -/
theorem c7_polling_loops_witness :
    (fun k => if k = 2 then "ACTIVE" else "CREATING") 2 = "ACTIVE" ∧
    pollLoop activeTerminal (fun _ => "CREATING") 7 0 = none ∧
    (∃ m, m ≤ 2 ∧
      pollLoop activeTerminal (fun k => if k = 2 then "ACTIVE" else "CREATING")
        5 0 = some m) ∧
    ingestionTerminal ((fun k => if k = 1 then "FAILED" else "IN_PROGRESS") 1) = true ∧
    pollLoop ingestionTerminal (fun _ => "IN_PROGRESS") 9 0 = none ∧
    (∃ m, m ≤ 1 ∧
      pollLoop ingestionTerminal (fun k => if k = 1 then "FAILED" else "IN_PROGRESS")
        4 0 = some m) :=
  ⟨((c7_polling_loops (fun k => if k = 2 then "ACTIVE" else "CREATING")).1
      5 2 (by decide)).1,
   (c7_polling_loops (fun _ => "CREATING")).2.1 (fun n => by simp) 7,
   (c7_polling_loops (fun k => if k = 2 then "ACTIVE" else "CREATING")).2.2.1
      2 (by decide) 5 (by omega),
   ((c7_polling_loops (fun k => if k = 1 then "FAILED" else "IN_PROGRESS")).2.2.2.1
      4 1 (by decide)).1,
   (c7_polling_loops (fun _ => "IN_PROGRESS")).2.2.2.2.1
      (fun n => by simp [ingestionTerminal]) 9,
   (c7_polling_loops (fun k => if k = 1 then "FAILED" else "IN_PROGRESS")).2.2.2.2.2
      1 (by decide) 4 (by omega)⟩

/-- The 5-message window over a conversation ending in the current turn is
the last 4 prior messages followed by that turn. -/
theorem takeLast_five_append (h : List Msg) (u : Msg) :
    takeLast 5 (h ++ [u]) = takeLast 4 h ++ [u] := by
  simp only [takeLast, List.length_append, List.length_cons, List.length_nil]
  rw [List.drop_append_of_le_length (by omega)]
  congr 1

/-- C4: with empty prior history the composed prompt has no "Conversation
history" block; with non-empty prior history the block renders exactly the
last 4 prior turns (the 5-message window minus the just-appended current
user turn), each as a "role: content" line.  The final conjunct ties the
blocks to the prompt `process_chat` composes. -/
theorem c4_history_window (h : List Msg) (u : Msg) :
    (h = [] → historyBlock (h ++ [u]) = []) ∧
    (h ≠ [] → historyBlock (h ++ [u]) =
      ["Conversation history:\n" ++
        String.intercalate "\n" ((takeLast 4 h).map renderMsg)]) ∧
    (∀ mode message context kb_context,
      chat_prompt_parts mode message context kb_context (h ++ [u]) =
        [AGENT_PROMPTS mode] ++ kbBlock kb_context ++ ctxBlock context ++
          historyBlock (h ++ [u]) ++
          ["User query: " ++ message, "Respond as a " ++ mode.toStr ++ ":"]) := by
  refine ⟨?_, ?_, fun mode message context kb_context => rfl⟩
  · rintro rfl
    rfl
  · intro hne
    have hpos : 0 < h.length := List.length_pos.mpr hne
    have hcond : (takeLast 4 h ++ [u]).length > 1 := by
      simp only [List.length_append, List.length_cons, List.length_nil,
        takeLast, List.length_drop]
      omega
    simp only [historyBlock, takeLast_five_append]
    rw [if_pos hcond, List.dropLast_concat]

/-- Witness for C4: an empty prior history yields no history block; a
5-turn prior history yields a block rendering its last 4 turns. -/
theorem c4_history_window_witness :
    historyBlock (([] : List Msg) ++ [⟨"user", "q", 9⟩]) = [] ∧
    historyBlock ([⟨"user", "a", 1⟩, ⟨"assistant", "b", 2⟩, ⟨"user", "c", 3⟩,
        ⟨"assistant", "d", 4⟩, ⟨"user", "e", 5⟩] ++ [⟨"user", "q", 9⟩]) =
      ["Conversation history:\n" ++
        String.intercalate "\n"
          ((takeLast 4 [⟨"user", "a", 1⟩, ⟨"assistant", "b", 2⟩, ⟨"user", "c", 3⟩,
            ⟨"assistant", "d", 4⟩, ⟨"user", "e", 5⟩]).map renderMsg)] :=
  ⟨(c4_history_window [] ⟨"user", "q", 9⟩).1 rfl,
   (c4_history_window [⟨"user", "a", 1⟩, ⟨"assistant", "b", 2⟩, ⟨"user", "c", 3⟩,
      ⟨"assistant", "d", 4⟩, ⟨"user", "e", 5⟩] ⟨"user", "q", 9⟩).2.1 (by decide)⟩

/-- C9: with no knowledge index configured the retrieval result is the
empty list and the composed prompt carries no retrieved-context block; in
general the retrieved-context block, when present, is the newline
concatenation of the content of at most the first 3 retrieval results in
the order the retrieval service returned them. -/
theorem c9_kb_context_block (kb : Option String)
    (retrieve : Except String (List RetrievalItem)) :
    (kb = none → query_knowledge_base kb retrieve = [] ∧
      kbBlock (query_knowledge_base kb retrieve) = [] ∧
      ∀ mode message context conv,
        chat_prompt_parts mode message context (query_knowledge_base kb retrieve)
            conv =
          [AGENT_PROMPTS mode] ++ ctxBlock context ++ historyBlock conv ++
            ["User query: " ++ message, "Respond as a " ++ mode.toStr ++ ":"]) ∧
    (∀ items : List RetrievalItem,
      kbBlock items = [] ∨
      kbBlock items =
        ["Relevant knowledge base context:\n" ++
          String.intercalate "\n" ((items.take 3).map (·.content))]) := by
  constructor
  · rintro rfl
    exact ⟨rfl, rfl, fun mode message context conv => rfl⟩
  · intro items
    simp only [kbBlock]
    by_cases ht : String.intercalate "\n" ((items.take 3).map (·.content)) = ""
    · left
      rw [if_neg (not_not_intro ht)]
    · right
      rw [if_pos ht]

/-- Witness for C9 at an unconfigured knowledge index with a non-trivial
retrieval oracle. -/
theorem c9_kb_context_block_witness :
    query_knowledge_base none (.ok [⟨"x", 1, "l"⟩]) = [] ∧
    kbBlock (query_knowledge_base none (.ok [⟨"x", 1, "l"⟩])) = [] :=
  ⟨((c9_kb_context_block none (.ok [⟨"x", 1, "l"⟩])).1 rfl).1,
   ((c9_kb_context_block none (.ok [⟨"x", 1, "l"⟩])).1 rfl).2.1⟩

/-- C1: if a step of the provisioning plan fails, no step later in the
plan order has its external call issued by `setup_complete_system`. -/
theorem c1_failed_step_stops_plan (env : Env) (pn : String) (ts : Nat)
    (s t : Step) (hs : stepFails env s = true) (hlt : stepIndex s < stepIndex t) :
    t ∉ (setup_complete_system env pn ts).1 := by
  rcases env with ⟨bucketOk, roleResult, collectionResult, kbResult, syncOk⟩
  cases bucketOk <;> rcases roleResult with _ | ra <;>
    rcases collectionResult with _ | ca <;> rcases kbResult with _ | ⟨ki, di⟩ <;>
    cases syncOk <;> cases s <;> cases t <;>
    simp_all [stepFails, stepIndex, setup_complete_system]

/-- Witness for C1: with a failing bucket-creation step, the ingestion-sync
step is never issued. -/
theorem c1_failed_step_stops_plan_witness :
    Step.syncKB ∉
      (setup_complete_system
        ⟨false, some "ra", some "ca", some ("ki", "di"), true⟩ "p" 0).1 :=
  c1_failed_step_stops_plan ⟨false, some "ra", some "ca", some ("ki", "di"), true⟩
    "p" 0 .createBucket .syncKB (by decide) (by decide)

/-- C6: `setup_complete_system` returns a result exactly when every step
succeeds and the ingestion job ends COMPLETE, and any returned bundle is
the full one: the knowledge-base and data-source ids of the
knowledge-base step, the generated bucket name, the derived collection
name and the role ARN — never a partial bundle. -/
theorem c6_full_bundle_or_none (env : Env) (pn : String) (ts : Nat) :
    ((setup_complete_system env pn ts).2.isSome = true ↔
      (env.bucketOk = true ∧ env.roleResult.isSome = true ∧
        env.collectionResult.isSome = true ∧ env.kbResult.isSome = true ∧
        env.syncOk = true)) ∧
    (∀ r, (setup_complete_system env pn ts).2 = some r →
      env.roleResult = some r.role_arn ∧
      env.kbResult = some (r.knowledge_base_id, r.data_source_id) ∧
      r.bucket_name = pn ++ "-documents-" ++ toString ts ∧
      r.collection_name = pn ++ "-kb-collection") := by
  rcases env with ⟨bucketOk, roleResult, collectionResult, kbResult, syncOk⟩
  cases bucketOk <;> rcases roleResult with _ | ra <;>
    rcases collectionResult with _ | ca <;> rcases kbResult with _ | ⟨ki, di⟩ <;>
    cases syncOk <;>
    simp_all [setup_complete_system]

/-- Witness for C6: a fully successful run returns the complete bundle. -/
theorem c6_full_bundle_or_none_witness :
    (Env.mk true (some "ra") (some "ca") (some ("ki", "di")) true).roleResult =
      some (SetupResult.role_arn
        ⟨"ki", "di", "p" ++ "-documents-" ++ toString 7, "p" ++ "-kb-collection",
          "ra"⟩) ∧
    (Env.mk true (some "ra") (some "ca") (some ("ki", "di")) true).kbResult =
      some (SetupResult.knowledge_base_id
          ⟨"ki", "di", "p" ++ "-documents-" ++ toString 7, "p" ++ "-kb-collection",
            "ra"⟩,
        SetupResult.data_source_id
          ⟨"ki", "di", "p" ++ "-documents-" ++ toString 7, "p" ++ "-kb-collection",
            "ra"⟩) ∧
    SetupResult.bucket_name
        ⟨"ki", "di", "p" ++ "-documents-" ++ toString 7, "p" ++ "-kb-collection",
          "ra"⟩ =
      "p" ++ "-documents-" ++ toString 7 ∧
    SetupResult.collection_name
        ⟨"ki", "di", "p" ++ "-documents-" ++ toString 7, "p" ++ "-kb-collection",
          "ra"⟩ =
      "p" ++ "-kb-collection" :=
  (c6_full_bundle_or_none ⟨true, some "ra", some "ca", some ("ki", "di"), true⟩
      "p" 7).2
    ⟨"ki", "di", "p" ++ "-documents-" ++ toString 7, "p" ++ "-kb-collection", "ra"⟩
    rfl

/-- `create_s3_bucket` succeeds both on a fresh name and on an
already-owned bucket. -/
theorem create_s3_bucket_ok (st : AWSState) (b : String) :
    (create_s3_bucket st b).2 = true := by
  by_cases h : b ∈ st.buckets <;>
    simp [create_s3_bucket, awsCreateBucket, h]

/-- `create_iam_role_for_bedrock` returns the role's ARN whether the role
is fresh or already exists. -/
theorem create_iam_role_ok (st : AWSState) (rn : String) :
    (create_iam_role_for_bedrock st rn).2 = some (roleArnOf rn) := by
  by_cases h : rn ∈ st.roles <;>
    simp [create_iam_role_for_bedrock, awsCreateRole, awsGetRole, h]

/-- C2 (amended): bucket creation and role creation are idempotent — a
second invocation with the same name succeeds with the same returned
identifier — but a second `create_opensearch_collection` with the same
name fails and returns `None`: the already-existing encryption security
policy makes `create_security_policy` raise a conflict, which the
function's blanket `ClientError` handler treats as fatal. -/
theorem c2_idempotence_amended (st : AWSState) (b rn cn : String)
    (statuses : Nat → String) (fuel k : Nat)
    (henc : (cn ++ "-encryption", "encryption") ∉ st.securityPolicies)
    (hnet : (cn ++ "-network", "network") ∉ st.securityPolicies)
    (hcol : cn ∉ st.collections)
    (hpoll : pollLoop activeTerminal statuses fuel 0 = some k) :
    (create_s3_bucket st b).2 = true ∧
    (create_s3_bucket (create_s3_bucket st b).1 b).2 = true ∧
    (create_iam_role_for_bedrock st rn).2 = some (roleArnOf rn) ∧
    (create_iam_role_for_bedrock
        (create_iam_role_for_bedrock st rn).1 rn).2 = some (roleArnOf rn) ∧
    (create_opensearch_collection st cn statuses fuel).2 =
      some (collectionArnOf cn) ∧
    (create_opensearch_collection
        (create_opensearch_collection st cn statuses fuel).1
        cn statuses fuel).2 = none := by
  refine ⟨create_s3_bucket_ok st b, create_s3_bucket_ok _ b,
    create_iam_role_ok st rn, create_iam_role_ok _ rn, ?_, ?_⟩ <;>
    simp [create_opensearch_collection, awsCreateSecurityPolicy,
      awsCreateCollection, henc, hnet, hcol, hpoll, List.mem_cons]

/-- Counterexample for C2 as stated: starting from an empty account, the
first `create_opensearch_collection` for name "c" succeeds with the
collection ARN, but the second invocation with the identical name returns
`None` instead of succeeding with the same ARN. -/
theorem c2_idempotence_counterexample :
    (create_opensearch_collection ⟨[], [], [], []⟩ "c" (fun _ => "ACTIVE") 1).2 =
      some (collectionArnOf "c") ∧
    (create_opensearch_collection
        (create_opensearch_collection ⟨[], [], [], []⟩ "c" (fun _ => "ACTIVE") 1).1
        "c" (fun _ => "ACTIVE") 1).2 = none ∧
    (create_opensearch_collection
        (create_opensearch_collection ⟨[], [], [], []⟩ "c" (fun _ => "ACTIVE") 1).1
        "c" (fun _ => "ACTIVE") 1).2 ≠ some (collectionArnOf "c") := by
  refine ⟨rfl, rfl, fun hcontra => ?_⟩
  have hn : (create_opensearch_collection
      (create_opensearch_collection ⟨[], [], [], []⟩ "c" (fun _ => "ACTIVE") 1).1
      "c" (fun _ => "ACTIVE") 1).2 = none := rfl
  rw [hn] at hcontra
  cases hcontra

/-- Witness for C2 (amended) at an empty account with an immediately
ACTIVE collection. -/
theorem c2_idempotence_amended_witness :
    (create_s3_bucket ⟨[], [], [], []⟩ "b").2 = true ∧
    (create_s3_bucket (create_s3_bucket ⟨[], [], [], []⟩ "b").1 "b").2 = true ∧
    (create_iam_role_for_bedrock ⟨[], [], [], []⟩ "r").2 = some (roleArnOf "r") ∧
    (create_iam_role_for_bedrock
        (create_iam_role_for_bedrock ⟨[], [], [], []⟩ "r").1 "r").2 =
      some (roleArnOf "r") ∧
    (create_opensearch_collection ⟨[], [], [], []⟩ "c" (fun _ => "ACTIVE") 1).2 =
      some (collectionArnOf "c") ∧
    (create_opensearch_collection
        (create_opensearch_collection ⟨[], [], [], []⟩ "c" (fun _ => "ACTIVE") 1).1
        "c" (fun _ => "ACTIVE") 1).2 = none :=
  c2_idempotence_amended ⟨[], [], [], []⟩ "b" "r" "c" (fun _ => "ACTIVE") 1 0
    (by simp) (by simp) (by simp) (by decide)

end Mcp
